import Mathlib

/-!
Verification of the Construction API service of the oasis-core-rosetta-gateway
repository (src/services/construction.go), as a shallow embedding in Lean 4.

The Go source is embedded as follows:

* Decimal amount strings are real Lean `String`s; Go's `math/big.Int`
  base-10 text codec (`UnmarshalText` / `String`, standard library code) is
  modelled by `parseBigInt` and `natToString` below.
* `quantity.Quantity` (oasis-core, a non-negative arbitrary-precision
  integer) is modelled as `Nat`; `Quantity.FromBigInt` fails on negative
  input, modelled by `quantityFromBigInt`.
* `staking.Address` (oasis-core) is an abstract value with a lossless,
  injective text codec, modelled by `Address.toText` / `Address.unmarshalText`
  over a canonical decimal representation; the exact bech32 alphabet is
  irrelevant to every property proved here.
* JSON / CBOR transport strings are modelled by `Blob`: a transport value
  either decodes to the embedded structure or is garbage.  CBOR encoding of
  oasis-core is canonical and injective, so a blob is identified with the
  value it encodes.
* Ed25519 (external crypto) is modelled as an idealized deterministic
  signature scheme: for each public key and message exactly one 64-byte
  string verifies (`mkValidSig`); key/signature well-formedness is the
  fixed-length check performed by `UnmarshalBinary` in oasis-core.
* The endpoint functions `constructionPayloads`, `constructionParse*`,
  `constructionCombine`, `constructionSubmit` are line-by-line translations
  of the Go functions of the same names; network-identifier validation
  (an external collaborator, `ValidateNetworkIdentifier`) is outside the
  embedded core and is taken as passing.
-/

namespace OasisGateway

/-! ## Decimal digit codec (models Go math/big base-10 text) -/

/-- One decimal digit to its character, digits 0 through 9 (code points
48 through 57). -/
def digitChar (d : Nat) : Char :=
  Char.ofNat (48 + d)

/-- One character to its decimal digit value, if it is a digit. -/
def charDigit (c : Char) : Option Nat :=
  if 48 ≤ c.toNat ∧ c.toNat ≤ 57 then some (c.toNat - 48) else none

/-- Digits of `n`, least significant first; `fuel` bounds the recursion and
any `fuel > n` is enough. -/
def toDigitsRev (fuel : Nat) (n : Nat) : List Nat :=
  match fuel with
  | 0 => []
  | fuel + 1 => if n < 10 then [n] else n % 10 :: toDigitsRev fuel (n / 10)

/-- Canonical decimal rendering of a natural number; models the output of
Go `math/big.Int.String` on a non-negative value (and of
`quantity.Quantity.String`). -/
def natToString (n : Nat) : String :=
  ⟨((toDigitsRev (n + 1) n).reverse.map digitChar)⟩

/-- Parse a digit sequence left to right, accumulating into `acc`; fails on
the first non-digit character. -/
def parseDigitsFrom (acc : Nat) : List Char → Option Nat
  | [] => some acc
  | c :: cs =>
    match charDigit c with
    | some d => parseDigitsFrom (acc * 10 + d) cs
    | none => none

/-- Models Go `math/big.Int.UnmarshalText` in base 10: an optional single
leading sign followed by one or more decimal digits; anything else fails. -/
def parseBigInt (s : String) : Option Int :=
  match s.data with
  | [] => none
  | c :: cs =>
    if c = '+' then
      if cs = [] then none else (parseDigitsFrom 0 cs).map (fun n => (n : Int))
    else if c = '-' then
      if cs = [] then none else (parseDigitsFrom 0 cs).map (fun n => -(n : Int))
    else
      (parseDigitsFrom 0 (c :: cs)).map (fun n => (n : Int))

/-- Value of a least-significant-first digit list. -/
def digitsRevVal : List Nat → Nat
  | [] => 0
  | d :: ds => d + 10 * digitsRevVal ds

theorem charDigit_digitChar (d : Nat) (h : d < 10) :
    charDigit (digitChar d) = some d := by
  interval_cases d <;> rfl

theorem parseDigitsFrom_map_digitChar (ds : List Nat) (acc : Nat)
    (h : ∀ d ∈ ds, d < 10) :
    parseDigitsFrom acc (ds.map digitChar) =
      some (ds.foldl (fun a d => a * 10 + d) acc) := by
  induction ds generalizing acc with
  | nil => rfl
  | cons d ds ih =>
    have hd : d < 10 := h d (by simp)
    simp only [List.map_cons, parseDigitsFrom, charDigit_digitChar d hd,
      List.foldl_cons]
    exact ih (acc * 10 + d) (fun x hx => h x (by simp [hx]))

theorem foldl_reverse_digits (ds : List Nat) (acc : Nat) :
    (ds.reverse).foldl (fun a d => a * 10 + d) acc =
      acc * 10 ^ ds.length + digitsRevVal ds := by
  induction ds generalizing acc with
  | nil => simp [digitsRevVal]
  | cons d ds ih =>
    simp only [List.reverse_cons, List.foldl_append, List.foldl_cons,
      List.foldl_nil, ih, digitsRevVal, List.length_cons]
    ring

theorem digitsRevVal_toDigitsRev (fuel n : Nat) (h : n < fuel) :
    digitsRevVal (toDigitsRev fuel n) = n := by
  induction fuel generalizing n with
  | zero => omega
  | succ f ih =>
    simp only [toDigitsRev]
    by_cases h10 : n < 10
    · simp [h10, digitsRevVal]
    · have hn : 0 < n := by omega
      have hdiv : n / 10 < n := Nat.div_lt_self hn (by omega)
      have : n / 10 < f := by omega
      simp [h10, digitsRevVal, ih (n / 10) this]
      omega

theorem toDigitsRev_lt (fuel n : Nat) : ∀ d ∈ toDigitsRev fuel n, d < 10 := by
  induction fuel generalizing n with
  | zero => simp [toDigitsRev]
  | succ f ih =>
    intro d hd
    simp only [toDigitsRev] at hd
    by_cases h10 : n < 10
    · simp [h10] at hd; omega
    · simp [h10] at hd
      rcases hd with h | h
      · omega
      · exact ih (n / 10) d h

theorem toDigitsRev_ne_nil (fuel n : Nat) (h : n < fuel) :
    toDigitsRev fuel n ≠ [] := by
  cases fuel with
  | zero => omega
  | succ f =>
    simp only [toDigitsRev]
    by_cases h10 : n < 10 <;> simp [h10]

theorem parseDigitsFrom_natToString (n : Nat) :
    parseDigitsFrom 0 (natToString n).data = some n := by
  have hlt : ∀ d ∈ (toDigitsRev (n + 1) n).reverse, d < 10 := by
    intro d hd
    exact toDigitsRev_lt (n + 1) n d (List.mem_reverse.mp hd)
  show parseDigitsFrom 0 (((toDigitsRev (n + 1) n).reverse).map digitChar) = some n
  rw [parseDigitsFrom_map_digitChar _ _ hlt, foldl_reverse_digits]
  simp [digitsRevVal_toDigitsRev (n + 1) n (by omega)]

theorem natToString_data_mem (n : Nat) :
    ∀ c ∈ (natToString n).data, ∃ d, d < 10 ∧ c = digitChar d := by
  intro c hc
  simp only [natToString, List.mem_map] at hc
  obtain ⟨d, hd, rfl⟩ := hc
  exact ⟨d, toDigitsRev_lt (n + 1) n d (List.mem_reverse.mp hd), rfl⟩

theorem natToString_data_ne_nil (n : Nat) : (natToString n).data ≠ [] := by
  simp only [natToString]
  intro h
  exact toDigitsRev_ne_nil (n + 1) n (by omega)
    (by simpa using congrArg List.length h)

theorem digitChar_ne_sign (d : Nat) (h : d < 10) :
    digitChar d ≠ '+' ∧ digitChar d ≠ '-' := by
  interval_cases d <;> exact ⟨by decide, by decide⟩

theorem parseBigInt_natToString (n : Nat) :
    parseBigInt (natToString n) = some (n : Int) := by
  have hne := natToString_data_ne_nil n
  have hval := parseDigitsFrom_natToString n
  rcases hdata : (natToString n).data with _ | ⟨c, cs⟩
  · exact absurd hdata hne
  · obtain ⟨d, hd, rfl⟩ := natToString_data_mem n c (by rw [hdata]; simp)
    have hsg := digitChar_ne_sign d hd
    rw [hdata] at hval
    simp [parseBigInt, hdata, if_neg hsg.1, if_neg hsg.2, hval]

theorem append_minus_data (s : String) : ("-" ++ s).data = '-' :: s.data := by
  have h : ("-" ++ s).data = "-".data ++ s.data := String.data_append "-" s
  simp only [h]
  rfl

theorem parseBigInt_neg_natToString (n : Nat) :
    parseBigInt ("-" ++ natToString n) = some (-(n : Int)) := by
  have hne := natToString_data_ne_nil n
  have hval := parseDigitsFrom_natToString n
  simp only [parseBigInt, append_minus_data]
  simp [if_neg (by decide : ¬ ('-' = '+')), if_neg hne, hval]

/-! ## Quantities (oasis-core `quantity.Quantity`: non-negative big integer) -/

/-- Models `quantity.Quantity.FromBigInt`: fails on a negative input, stores
the non-negative magnitude otherwise. -/
def quantityFromBigInt (i : Int) : Option Nat :=
  if i < 0 then none else some i.toNat

/-! ## Addresses (oasis-core `staking.Address`, external to this repository)

An address is an abstract value with a lossless injective text codec
(spec section 6: the text form round-trips to and from the binary form).
The concrete bech32 alphabet is irrelevant here; the model uses the prefix
"oasis1" followed by a canonical decimal rendering. -/

structure Address where
  val : Nat
deriving DecidableEq, Repr

/-- The Go zero value `var a staking.Address`. -/
def Address.zero : Address := ⟨0⟩

/-- Models `staking.Address.String`. -/
def Address.toText (a : Address) : String :=
  "oasis1" ++ natToString a.val

/-- Models `staking.Address.UnmarshalText`: succeeds exactly on the canonical
text form of an address. -/
def Address.unmarshalText (s : String) : Option Address :=
  match s.data with
  | 'o' :: 'a' :: 's' :: 'i' :: 's' :: '1' :: rest =>
    match parseDigitsFrom 0 rest with
    | some v => if rest = (natToString v).data then some ⟨v⟩ else none
    | none => none
  | _ => none

/-- Models `staking.NewAddress`: a deterministic derivation of an address
from public-key bytes. -/
def Address.fromPublicKey (pk : List Nat) : Address :=
  ⟨pk.foldl (fun a b => a * 256 + b) 0⟩

theorem address_toText_data (a : Address) :
    (Address.toText a).data =
      'o' :: 'a' :: 's' :: 'i' :: 's' :: '1' :: (natToString a.val).data := by
  have h : (Address.toText a).data = "oasis1".data ++ (natToString a.val).data :=
    String.data_append "oasis1" (natToString a.val)
  simp only [h]
  rfl

theorem address_roundtrip (a : Address) :
    Address.unmarshalText (Address.toText a) = some a := by
  simp [Address.unmarshalText, address_toText_data,
    parseDigitsFrom_natToString a.val]

/-! ## Rosetta request/response value model (the fields the code reads) -/

structure SubAccountIdentifier where
  address : String
deriving DecidableEq, Repr

structure AccountIdentifier where
  address : String
  subAccount : Option SubAccountIdentifier
deriving DecidableEq, Repr

/-- `types.Currency`; only the `Symbol` field is ever compared by the code
(`readCurrency` has a TODO noting other fields are unchecked). -/
structure Currency where
  symbol : String
deriving DecidableEq, Repr

structure Amount where
  value : String
  currency : Currency
deriving DecidableEq, Repr

/-- A value of a JSON `map[string]interface` metadata map as the code probes
it: `num n` is a JSON number whose uint64 conversion is `n` (the code's
`float64` assertion succeeds), `other` is any non-numeric value (the
assertion fails). -/
inductive MetaVal where
  | num (n : Nat)
  | other
deriving DecidableEq, Repr

/-- First-match lookup in a metadata map. -/
def lookupMeta : List (String × MetaVal) → String → Option MetaVal
  | [], _ => none
  | (k, v) :: rest, key => if k = key then some v else lookupMeta rest key

structure Operation where
  index : Int
  type : String
  account : AccountIdentifier
  amount : Amount
  metadata : List (String × MetaVal)
deriving DecidableEq, Repr

/-! ## Constants -/

/-- construction.go line 30. -/
def NonceKey : String := "nonce"

/-- construction.go line 35. -/
def FeeGasKey : String := "fee_gas"

/-- construction.go line 38. -/
def DefaultGas : Nat := 10000

/-- construction.go line 41: the signer address placeholder in an unsigned
transaction. -/
def FromPlaceholder : String := "(from)"

/-- Modelled from the spec: operation type tag Transfer (the constant
OpTransfer of the services package is defined outside src/; only its
identity and distinctness from OpBurn matter). -/
def OpTransfer : String := "Transfer"

/-- Modelled from the spec: operation type tag Burn (constant OpBurn of the
services package, defined outside src/). -/
def OpBurn : String := "Burn"

/-- Modelled from the spec: the General sub-account tag (constant
SubAccountGeneral of the services package, defined outside src/). -/
def SubAccountGeneral : String := "General"

/-- Modelled from the spec: the Escrow sub-account tag (constant
SubAccountEscrow of the services package, defined outside src/). -/
def SubAccountEscrow : String := "Escrow"

/-- Modelled from the spec: the native-token currency (constant
OasisCurrency of the services package, defined outside src/; only its
symbol is compared). -/
def OasisCurrency : Currency := ⟨"NativeToken"⟩

/-- Modelled from the spec: the escrow pool-share currency (constant
PoolShare of the services package, defined outside src/). -/
def PoolShare : Currency := ⟨"PoolShare"⟩

/-- Modelled from the spec: the error taxonomy of section 7 (the Err*
values of the services package are defined outside src/; each constructor
stands for the value of the same name). -/
inductive Err where
  | malformedValue
  | notImplemented
  | invalidAccountAddress
  | unableToGetNextNonce
  | unableToSubmitTx
deriving DecidableEq, Repr

/-! ## Currency and amount codec (construction.go lines 567-596) -/

/-- construction.go `readCurrency`. -/
def readCurrency (amount : Amount) (currency : Currency) (negative : Bool) :
    Option Nat :=
  if amount.currency.symbol ≠ currency.symbol then none
  else
    match parseBigInt amount.value with
    | none => none
    | some bi => quantityFromBigInt (if negative then -bi else bi)

/-- construction.go `readOasisCurrency`. -/
def readOasisCurrency (amount : Amount) : Option Nat :=
  readCurrency amount OasisCurrency false

/-- construction.go `readOasisCurrencyNeg`. -/
def readOasisCurrencyNeg (amount : Amount) : Option Nat :=
  readCurrency amount OasisCurrency true

/-- construction.go `readPoolShareNeg`. -/
def readPoolShareNeg (amount : Amount) : Option Nat :=
  readCurrency amount PoolShare true

/-! ## Transactions -/

/-- The staking method name carried in `transaction.Transaction.Method`;
`other s` is any method string besides the four the service recognizes. -/
inductive MethodName where
  | transfer
  | burn
  | addEscrow
  | reclaimEscrow
  | other (s : String)
deriving DecidableEq, Repr

/-- The decoded transaction body (`cbor.RawMessage` in Go).  oasis-core
CBOR is canonical and strict, and the four staking body records use
disjoint field keys, so a body blob decodes under exactly the record it was
produced from; `garbage` stands for bytes decoding under none of them. -/
inductive TxBody where
  | transfer (toAddr : Address) (tokens : Nat)
  | burn (tokens : Nat)
  | escrow (account : Address) (tokens : Nat)
  | reclaimEscrow (account : Address) (shares : Nat)
  | garbage
deriving DecidableEq, Repr

/-- `transaction.Fee`. -/
structure Fee where
  amount : Nat
  gas : Nat
deriving DecidableEq, Repr

/-- `transaction.Transaction`. -/
structure Transaction where
  nonce : Nat
  fee : Option Fee
  method : MethodName
  body : TxBody
deriving DecidableEq, Repr

/-- A CBOR blob that either encodes a transaction or is garbage
(`SignedTransaction.Blob`). -/
inductive CborBlob where
  | ofTx (tx : Transaction)
  | garbage
deriving DecidableEq, Repr

/-- `transaction.SignedTransaction`: the verbatim blob plus the detached
signature (public-key bytes and raw signature bytes). -/
structure SignedTransaction where
  blob : CborBlob
  pk : List Nat
  sig : List Nat
deriving DecidableEq, Repr

/-- A transport string exchanged with the caller (`request.Transaction`,
`request.UnsignedTransaction`, `request.SignedTransaction`): it decodes as
the structure it was produced from, or as nothing. -/
inductive TransportString where
  | ofTx (tx : Transaction)
  | ofSigned (st : SignedTransaction)
  | garbage
deriving DecidableEq, Repr

/-! ## Idealized signature scheme (external Ed25519 of oasis-core)

Ed25519 is deterministic: for a public key and message there is exactly one
accepted signature.  `mkValidSig` is that signature; `sigVerify` models
`signature.Signature.Verify` over the domain-separated message
(`transaction.SignatureContext` is a fixed constant folded into the model).
Well-formedness (`UnmarshalBinary`) is the fixed-length byte check. -/

def PublicKeySize : Nat := 32

def SignatureSize : Nat := 64

def encodeMethod : MethodName → Nat
  | .transfer => 1
  | .burn => 2
  | .addEscrow => 3
  | .reclaimEscrow => 4
  | .other s => 5 + s.length

def encodeBody : TxBody → Nat
  | .transfer toAddr tokens => 1 + toAddr.val + tokens
  | .burn tokens => 2 + tokens
  | .escrow account tokens => 3 + account.val + tokens
  | .reclaimEscrow account shares => 4 + account.val + shares
  | .garbage => 0

def encodeTx (tx : Transaction) : Nat :=
  tx.nonce + encodeMethod tx.method + encodeBody tx.body +
    (match tx.fee with
     | none => 0
     | some f => f.amount + f.gas)

def encodeCborBlob : CborBlob → Nat
  | .ofTx tx => encodeTx tx + 1
  | .garbage => 0

/-- The unique 64-byte signature accepted for `pk` over `blob`. -/
def mkValidSig (pk : List Nat) (blob : CborBlob) : List Nat :=
  ((encodeCborBlob blob + pk.foldl (fun a b => a + b) 0) % 256) :: 1 ::
    List.replicate 62 0

/-- Signature verification. -/
def sigVerify (pk : List Nat) (blob : CborBlob) (sig : List Nat) : Bool :=
  sig == mkValidSig pk blob

/-- Models `SignedTransaction.Open` (verify the signature over the blob,
then decode the blob as a transaction). -/
def stOpen (st : SignedTransaction) : Option Transaction :=
  if sigVerify st.pk st.blob st.sig then
    match st.blob with
    | .ofTx tx => some tx
    | .garbage => none
  else none

/-! ## ConstructionPayloads (construction.go lines 599-889) -/

structure ConstructionPayloadsRequest where
  operations : List Operation
  metadata : List (String × MetaVal)
deriving DecidableEq, Repr

/-- `types.SigningPayload`; `message` stands for the signer-message bytes
`PrepareSignerMessage(SignatureContext, cbor(tx))`, which are determined by
the transaction. -/
structure SigningPayload where
  address : String
  message : Transaction
deriving DecidableEq, Repr

structure ConstructionPayloadsResponse where
  unsignedTransaction : TransportString
  payloads : List SigningPayload
deriving DecidableEq, Repr

/-- Fee gas extraction (construction.go lines 665-673): absent key gives
`DefaultGas`, a numeric value is used, a non-numeric value is an error
(returned as `none` here; the caller surfaces MalformedValue). -/
def feeGasFromMeta (md : List (String × MetaVal)) : Option Nat :=
  match lookupMeta md FeeGasKey with
  | none => some DefaultGas
  | some (.num g) => some g
  | some .other => none

/-- The matched-transfer case (construction.go lines 678-731). -/
def transferBranch (signWithAddr : String) (op1 op2 : Operation) :
    Except Err (MethodName × TxBody) :=
  if op1.account.address ≠ signWithAddr then .error .malformedValue
  else
    match readOasisCurrencyNeg op1.amount with
    | none => .error .malformedValue
    | some amount =>
      -- an UnmarshalText failure on the destination is only logged
      -- (lines 704-710); the zero-value address is then used
      let toAddr := (Address.unmarshalText op2.account.address).getD Address.zero
      match readOasisCurrency op2.amount with
      | none => .error .malformedValue
      | some amount2 =>
        if amount ≠ amount2 then .error .malformedValue
        else .ok (.transfer, .transfer toAddr amount)

/-- The matched-burn case (construction.go lines 732-757). -/
def burnBranch (signWithAddr : String) (op1 : Operation) :
    Except Err (MethodName × TxBody) :=
  if op1.account.address ≠ signWithAddr then .error .malformedValue
  else
    match readOasisCurrencyNeg op1.amount with
    | none => .error .malformedValue
    | some amount => .ok (.burn, .burn amount)

/-- The matched-add-escrow case (construction.go lines 758-811). -/
def addEscrowBranch (signWithAddr : String) (op1 op2 : Operation) :
    Except Err (MethodName × TxBody) :=
  if op1.account.address ≠ signWithAddr then .error .malformedValue
  else
    match readOasisCurrencyNeg op1.amount with
    | none => .error .malformedValue
    | some amount =>
      -- UnmarshalText failure only logged (lines 784-790)
      let escrowAccount :=
        (Address.unmarshalText op2.account.address).getD Address.zero
      match readOasisCurrency op2.amount with
      | none => .error .malformedValue
      | some amount2 =>
        if amount ≠ amount2 then .error .malformedValue
        else .ok (.addEscrow, .escrow escrowAccount amount)

/-- The matched-reclaim-escrow case (construction.go lines 812-838); note
there is no comparison of the account address with `signWithAddr`. -/
def reclaimEscrowBranch (op1 : Operation) : Except Err (MethodName × TxBody) :=
  -- UnmarshalText failure only logged (lines 819-825)
  let escrowAccount :=
    (Address.unmarshalText op1.account.address).getD Address.zero
  match readPoolShareNeg op1.amount with
  | none => .error .malformedValue
  | some amount => .ok (.reclaimEscrow, .reclaimEscrow escrowAccount amount)

/-- The pattern-matching switch of construction.go lines 677-844.  The Go
source checks its four cases in order transfer, burn, add-escrow,
reclaim-escrow; the operation count (3 for transfer/add-escrow, 2 for
burn/reclaim-escrow) separates them into disjoint groups, so dispatching on
the count first and keeping the source order inside each group is
equivalent. -/
def payloadsMethodBody (signWithAddr : String) (op1 : Operation)
    (rest : List Operation) : Except Err (MethodName × TxBody) :=
  match rest with
  | [] =>
    if op1.type = OpBurn ∧ op1.account.subAccount = some ⟨SubAccountGeneral⟩ then
      burnBranch signWithAddr op1
    else if op1.type = OpTransfer ∧
        op1.account.subAccount = some ⟨SubAccountEscrow⟩ then
      reclaimEscrowBranch op1
    else .error .notImplemented
  | [op2] =>
    if op1.type = OpTransfer ∧
        op1.account.subAccount = some ⟨SubAccountGeneral⟩ ∧
        op2.type = OpTransfer ∧
        op2.account.subAccount = some ⟨SubAccountGeneral⟩ then
      transferBranch signWithAddr op1 op2
    else if op1.type = OpTransfer ∧
        op1.account.subAccount = some ⟨SubAccountGeneral⟩ ∧
        op2.type = OpTransfer ∧
        op2.account.subAccount = some ⟨SubAccountEscrow⟩ then
      addEscrowBranch signWithAddr op1 op2
    else .error .notImplemented
  | _ => .error .notImplemented

/-- construction.go `ConstructionPayloads` (lines 599-889), after network
validation. -/
def ConstructionPayloads (request : ConstructionPayloadsRequest) :
    Except Err ConstructionPayloadsResponse :=
  match lookupMeta request.metadata NonceKey with
  | none => .error .malformedValue
  | some .other => .error .malformedValue
  | some (.num nonce) =>
    match request.operations with
    | feeOp :: op1 :: rest =>
      if feeOp.type ≠ OpTransfer then .error .malformedValue
      else
        match feeOp.account.subAccount with
        | none => .error .malformedValue
        | some sub =>
          if sub.address ≠ SubAccountGeneral then .error .malformedValue
          else
            let signWithAddr := feeOp.account.address
            match readOasisCurrencyNeg feeOp.amount with
            | none => .error .malformedValue
            | some feeAmount =>
              match feeGasFromMeta feeOp.metadata with
              | none => .error .malformedValue
              | some feeGas =>
                match payloadsMethodBody signWithAddr op1 rest with
                | .error e => .error e
                | .ok (method, body) =>
                  let tx : Transaction :=
                    ⟨nonce, some ⟨feeAmount, feeGas⟩, method, body⟩
                  .ok ⟨.ofTx tx, [⟨signWithAddr, tx⟩]⟩
    | _ => .error .malformedValue

/-! ## ConstructionParse (construction.go lines 294-530) -/

structure ConstructionParseResponse where
  operations : List Operation
  signers : List String
  metadataNonce : Nat
deriving DecidableEq, Repr

/-- The fee operation always emitted at index 0 (construction.go lines
343-369). -/
def parseFeeOp (tx : Transaction) (fromAddr : String) : Operation :=
  let feeAmountStr :=
    match tx.fee with
    | none => "-0"
    | some f => "-" ++ natToString f.amount
  let feeGas : Nat :=
    match tx.fee with
    | none => 0
    | some f => f.gas
  ⟨0, OpTransfer, ⟨fromAddr, some ⟨SubAccountGeneral⟩⟩,
    ⟨feeAmountStr, OasisCurrency⟩, [(FeeGasKey, .num feeGas)]⟩

/-- The method switch of construction.go lines 370-516: expand the decoded
body into operations; a body that fails to decode under the tagged method
is MalformedValue, an unrecognized method is NotImplemented. -/
def parseOps (tx : Transaction) (fromAddr : String) :
    Except Err (List Operation) :=
  match tx.method, tx.body with
  | .transfer, .transfer toAddr tokens =>
    .ok [parseFeeOp tx fromAddr,
      ⟨1, OpTransfer, ⟨fromAddr, some ⟨SubAccountGeneral⟩⟩,
        ⟨"-" ++ natToString tokens, OasisCurrency⟩, []⟩,
      ⟨2, OpTransfer, ⟨toAddr.toText, some ⟨SubAccountGeneral⟩⟩,
        ⟨natToString tokens, OasisCurrency⟩, []⟩]
  | .transfer, _ => .error .malformedValue
  | .burn, .burn tokens =>
    .ok [parseFeeOp tx fromAddr,
      ⟨1, OpBurn, ⟨fromAddr, some ⟨SubAccountGeneral⟩⟩,
        ⟨"-" ++ natToString tokens, OasisCurrency⟩, []⟩]
  | .burn, _ => .error .malformedValue
  | .addEscrow, .escrow account tokens =>
    .ok [parseFeeOp tx fromAddr,
      ⟨1, OpTransfer, ⟨fromAddr, some ⟨SubAccountGeneral⟩⟩,
        ⟨"-" ++ natToString tokens, OasisCurrency⟩, []⟩,
      ⟨2, OpTransfer, ⟨account.toText, some ⟨SubAccountEscrow⟩⟩,
        ⟨natToString tokens, OasisCurrency⟩, []⟩]
  | .addEscrow, _ => .error .malformedValue
  | .reclaimEscrow, .reclaimEscrow account shares =>
    .ok [parseFeeOp tx fromAddr,
      ⟨1, OpTransfer, ⟨account.toText, some ⟨SubAccountEscrow⟩⟩,
        ⟨"-" ++ natToString shares, PoolShare⟩, []⟩]
  | .reclaimEscrow, _ => .error .malformedValue
  | .other _, _ => .error .notImplemented

/-- construction.go `ConstructionParse` (lines 294-530), after network
validation: `signed` selects which decoding of the transport string is
attempted. -/
def ConstructionParse (signed : Bool) (transaction : TransportString) :
    Except Err ConstructionParseResponse :=
  if signed then
    match transaction with
    | .ofSigned st =>
      match stOpen st with
      | none => .error .malformedValue
      | some tx =>
        let fromAddr := (Address.fromPublicKey st.pk).toText
        match parseOps tx fromAddr with
        | .error e => .error e
        | .ok ops => .ok ⟨ops, [fromAddr], tx.nonce⟩
    | _ => .error .malformedValue
  else
    match transaction with
    | .ofTx tx =>
      match parseOps tx FromPlaceholder with
      | .error e => .error e
      | .ok ops => .ok ⟨ops, [], tx.nonce⟩
    | _ => .error .malformedValue

/-! ## ConstructionCombine (construction.go lines 218-291) -/

/-- `types.Signature`: the two fields the code reads. -/
structure RosettaSignature where
  publicKeyBytes : List Nat
  bytes : List Nat
deriving DecidableEq, Repr

structure ConstructionCombineRequest where
  unsignedTransaction : TransportString
  signatures : List RosettaSignature
deriving DecidableEq, Repr

/-- construction.go `ConstructionCombine` (lines 218-291), after network
validation.  The response is the transport string of the signed
transaction. -/
def ConstructionCombine (request : ConstructionCombineRequest) :
    Except Err TransportString :=
  match request.unsignedTransaction with
  | .ofTx tx =>
    -- txBuf := cbor.Marshal(tx); exactly one signature is required
    match request.signatures with
    | [sig] =>
      if sig.publicKeyBytes.length ≠ PublicKeySize then .error .malformedValue
      else if sig.bytes.length ≠ SignatureSize then .error .malformedValue
      else .ok (.ofSigned ⟨.ofTx tx, sig.publicKeyBytes, sig.bytes⟩)
    | _ => .error .malformedValue
  | _ => .error .malformedValue

/-! ## ConstructionSubmit (construction.go lines 114-152) -/

instance {ε α : Type} [DecidableEq ε] [DecidableEq α] :
    DecidableEq (Except ε α) := fun a b =>
  match a, b with
  | .error e₁, .error e₂ => decidable_of_iff (e₁ = e₂) (by simp)
  | .ok v₁, .ok v₂ => decidable_of_iff (v₁ = v₂) (by simp)
  | .error _, .ok _ => isFalse (by simp)
  | .ok _, .error _ => isFalse (by simp)

/-- The outcome of a submit call: whether the node client `SubmitTx` was
invoked, and the response.  A successful response carries the signed
transaction whose content hash is returned as the identifier (the hash is
collision resistant, hence injective on canonical encodings, and is
modelled by the value itself). -/
structure ConstructionSubmitOutcome where
  submitTxCalled : Bool
  response : Except Err SignedTransaction
deriving DecidableEq, Repr

/-- construction.go `ConstructionSubmit` (lines 114-152), after network
validation.  `submitOk` is the behaviour of the external node client:
whether `SubmitTx` succeeds on this request.  Line 125 invokes `SubmitTx`
with the raw request string before any local decoding of it. -/
def ConstructionSubmit (submitOk : Bool) (signedTransaction : TransportString) :
    ConstructionSubmitOutcome :=
  if !submitOk then ⟨true, .error .unableToSubmitTx⟩
  else
    match signedTransaction with
    | .ofSigned st => ⟨true, .ok st⟩
    | _ => ⟨true, .error .malformedValue⟩

/-- Whether an Except value is a success. -/
def exceptIsOk {ε α : Type} : Except ε α → Bool
  | .ok _ => true
  | .error _ => false

@[simp] theorem exceptIsOk_ok {ε α : Type} (a : α) :
    exceptIsOk (ε := ε) (.ok a) = true := rfl

@[simp] theorem exceptIsOk_error {ε α : Type} (e : ε) :
    exceptIsOk (α := α) (.error e) = false := rfl

/-! ## Canonical operation lists and evaluation lemmas -/

/-- The fee operation at index 0, with the canonical debit value string. -/
def feeOperation (addr : String) (fee : Nat) (md : List (String × MetaVal)) :
    Operation :=
  ⟨0, OpTransfer, ⟨addr, some ⟨SubAccountGeneral⟩⟩,
    ⟨"-" ++ natToString fee, OasisCurrency⟩, md⟩

/-- A non-fee operation with the given position, type tag, account, value
string and currency, and no metadata. -/
def mkOperation (i : Int) (ty addr sub value : String) (cur : Currency) :
    Operation :=
  ⟨i, ty, ⟨addr, some ⟨sub⟩⟩, ⟨value, cur⟩, []⟩

/-- The transfer-pattern operation list with canonical value strings. -/
def transferRequest (signer debitAddr creditAddr : String)
    (fee amt₁ amt₂ n : Nat) (md : List (String × MetaVal)) :
    ConstructionPayloadsRequest :=
  ⟨[feeOperation signer fee md,
    mkOperation 1 OpTransfer debitAddr SubAccountGeneral
      ("-" ++ natToString amt₁) OasisCurrency,
    mkOperation 2 OpTransfer creditAddr SubAccountGeneral
      (natToString amt₂) OasisCurrency],
   [(NonceKey, .num n)]⟩

/-- The burn-pattern operation list with canonical value strings. -/
def burnRequest (signer debitAddr : String) (fee amt n : Nat)
    (md : List (String × MetaVal)) : ConstructionPayloadsRequest :=
  ⟨[feeOperation signer fee md,
    mkOperation 1 OpBurn debitAddr SubAccountGeneral
      ("-" ++ natToString amt) OasisCurrency],
   [(NonceKey, .num n)]⟩

/-- The add-escrow-pattern operation list with canonical value strings. -/
def addEscrowRequest (signer debitAddr escrowAddr : String)
    (fee amt₁ amt₂ n : Nat) (md : List (String × MetaVal)) :
    ConstructionPayloadsRequest :=
  ⟨[feeOperation signer fee md,
    mkOperation 1 OpTransfer debitAddr SubAccountGeneral
      ("-" ++ natToString amt₁) OasisCurrency,
    mkOperation 2 OpTransfer escrowAddr SubAccountEscrow
      (natToString amt₂) OasisCurrency],
   [(NonceKey, .num n)]⟩

/-- The reclaim-escrow-pattern operation list with canonical value
strings. -/
def reclaimEscrowRequest (signer accountAddr : String) (fee shares n : Nat)
    (md : List (String × MetaVal)) : ConstructionPayloadsRequest :=
  ⟨[feeOperation signer fee md,
    mkOperation 1 OpTransfer accountAddr SubAccountEscrow
      ("-" ++ natToString shares) PoolShare],
   [(NonceKey, .num n)]⟩

@[simp] theorem opTransfer_eq_opBurn_iff : (OpTransfer = OpBurn) ↔ False := by
  simp only [iff_false]; decide

@[simp] theorem opBurn_eq_opTransfer_iff : (OpBurn = OpTransfer) ↔ False := by
  simp only [iff_false]; decide

@[simp] theorem subGeneral_eq_subEscrow_iff :
    (SubAccountGeneral = SubAccountEscrow) ↔ False := by
  simp only [iff_false]; decide

@[simp] theorem subEscrow_eq_subGeneral_iff :
    (SubAccountEscrow = SubAccountGeneral) ↔ False := by
  simp only [iff_false]; decide

@[simp] theorem feeGasFromMeta_nil : feeGasFromMeta [] = some DefaultGas := rfl

@[simp] theorem feeGasFromMeta_feeGas (g : Nat) :
    feeGasFromMeta [(FeeGasKey, .num g)] = some g := by
  simp [feeGasFromMeta, lookupMeta]

@[simp] theorem readOasisCurrencyNeg_canonical (q : Nat) :
    readOasisCurrencyNeg ⟨"-" ++ natToString q, OasisCurrency⟩ = some q := by
  simp [readOasisCurrencyNeg, readCurrency, parseBigInt_neg_natToString,
    quantityFromBigInt]

@[simp] theorem readOasisCurrency_canonical (q : Nat) :
    readOasisCurrency ⟨natToString q, OasisCurrency⟩ = some q := by
  simp [readOasisCurrency, readCurrency, parseBigInt_natToString,
    quantityFromBigInt]

@[simp] theorem readPoolShareNeg_canonical (q : Nat) :
    readPoolShareNeg ⟨"-" ++ natToString q, PoolShare⟩ = some q := by
  simp [readPoolShareNeg, readCurrency, parseBigInt_neg_natToString,
    quantityFromBigInt]

/-- Evaluation of `ConstructionPayloads` on a canonical transfer-pattern
list whose debit address equals the fee address. -/
theorem payloads_transfer_ok (signer creditAddr : String)
    (fee amt n g : Nat) (md : List (String × MetaVal))
    (hg : feeGasFromMeta md = some g) :
    ConstructionPayloads (transferRequest signer signer creditAddr fee amt amt n md) =
      .ok ⟨.ofTx ⟨n, some ⟨fee, g⟩, .transfer,
          .transfer ((Address.unmarshalText creditAddr).getD Address.zero) amt⟩,
        [⟨signer, ⟨n, some ⟨fee, g⟩, .transfer,
          .transfer ((Address.unmarshalText creditAddr).getD Address.zero) amt⟩⟩]⟩ := by
  simp [ConstructionPayloads, transferRequest, feeOperation, mkOperation,
    lookupMeta, hg, payloadsMethodBody, transferBranch]

/-- Evaluation of `ConstructionPayloads` on a canonical burn-pattern list
whose debit address equals the fee address. -/
theorem payloads_burn_ok (signer : String) (fee amt n g : Nat)
    (md : List (String × MetaVal)) (hg : feeGasFromMeta md = some g) :
    ConstructionPayloads (burnRequest signer signer fee amt n md) =
      .ok ⟨.ofTx ⟨n, some ⟨fee, g⟩, .burn, .burn amt⟩,
        [⟨signer, ⟨n, some ⟨fee, g⟩, .burn, .burn amt⟩⟩]⟩ := by
  simp [ConstructionPayloads, burnRequest, feeOperation, mkOperation,
    lookupMeta, hg, payloadsMethodBody, burnBranch]

/-- Evaluation of `ConstructionPayloads` on a canonical add-escrow-pattern
list whose debit address equals the fee address. -/
theorem payloads_addEscrow_ok (signer escrowAddr : String)
    (fee amt n g : Nat) (md : List (String × MetaVal))
    (hg : feeGasFromMeta md = some g) :
    ConstructionPayloads (addEscrowRequest signer signer escrowAddr fee amt amt n md) =
      .ok ⟨.ofTx ⟨n, some ⟨fee, g⟩, .addEscrow,
          .escrow ((Address.unmarshalText escrowAddr).getD Address.zero) amt⟩,
        [⟨signer, ⟨n, some ⟨fee, g⟩, .addEscrow,
          .escrow ((Address.unmarshalText escrowAddr).getD Address.zero) amt⟩⟩]⟩ := by
  simp [ConstructionPayloads, addEscrowRequest, feeOperation, mkOperation,
    lookupMeta, hg, payloadsMethodBody, addEscrowBranch]

/-- Evaluation of `ConstructionPayloads` on a canonical
reclaim-escrow-pattern list; no relation between the two addresses is
required. -/
theorem payloads_reclaimEscrow_ok (signer accountAddr : String)
    (fee shares n g : Nat) (md : List (String × MetaVal))
    (hg : feeGasFromMeta md = some g) :
    ConstructionPayloads (reclaimEscrowRequest signer accountAddr fee shares n md) =
      .ok ⟨.ofTx ⟨n, some ⟨fee, g⟩, .reclaimEscrow,
          .reclaimEscrow ((Address.unmarshalText accountAddr).getD Address.zero) shares⟩,
        [⟨signer, ⟨n, some ⟨fee, g⟩, .reclaimEscrow,
          .reclaimEscrow ((Address.unmarshalText accountAddr).getD Address.zero) shares⟩⟩]⟩ := by
  simp [ConstructionPayloads, reclaimEscrowRequest, feeOperation, mkOperation,
    lookupMeta, hg, payloadsMethodBody, reclaimEscrowBranch]

/-! ## Claim C5 -/

/-- C5 counterexample: a length-1 operation list (fee only) fed to
ConstructionPayloads fails with MalformedValue, which is a different error
kind from the NotImplemented the claim states. -/
theorem c5_counterexample :
    ConstructionPayloads ⟨[feeOperation "A" 1 []], [(NonceKey, .num 0)]⟩ =
      .error .malformedValue ∧
    Err.malformedValue ≠ Err.notImplemented := by
  decide

/-- C5 (amended): an operation list of length 1 fed to ConstructionPayloads
fails with the MalformedValue error kind (the missing-second-operation
check of construction.go lines 633-636), for every metadata map and every
single operation. -/
theorem c5_len1_malformedValue (md : List (String × MetaVal)) (op : Operation) :
    ConstructionPayloads ⟨[op], md⟩ = .error .malformedValue := by
  cases h : lookupMeta md NonceKey with
  | none => simp [ConstructionPayloads, h]
  | some v => cases v <;> simp [ConstructionPayloads, h]

/-! ## Claim C2 -/

/-- C2: in ConstructionPayloads the transfer, burn and add-escrow patterns
fail with MalformedValue whenever the debit operation's address (index 1)
differs from the fee operation's address (index 0, the signer), whatever
the amount strings; the reclaim-escrow pattern makes no such comparison and
succeeds for every pair of addresses, matching or not. -/
theorem c2_signer_check (signer debitAddr creditAddr : String)
    (fee shares n : Nat) (v₁ v₂ : String) :
    (debitAddr ≠ signer →
      ConstructionPayloads ⟨[feeOperation signer fee [],
        ⟨1, OpTransfer, ⟨debitAddr, some ⟨SubAccountGeneral⟩⟩, ⟨v₁, OasisCurrency⟩, []⟩,
        ⟨2, OpTransfer, ⟨creditAddr, some ⟨SubAccountGeneral⟩⟩, ⟨v₂, OasisCurrency⟩, []⟩],
        [(NonceKey, .num n)]⟩ = .error .malformedValue) ∧
    (debitAddr ≠ signer →
      ConstructionPayloads ⟨[feeOperation signer fee [],
        ⟨1, OpBurn, ⟨debitAddr, some ⟨SubAccountGeneral⟩⟩, ⟨v₁, OasisCurrency⟩, []⟩],
        [(NonceKey, .num n)]⟩ = .error .malformedValue) ∧
    (debitAddr ≠ signer →
      ConstructionPayloads ⟨[feeOperation signer fee [],
        ⟨1, OpTransfer, ⟨debitAddr, some ⟨SubAccountGeneral⟩⟩, ⟨v₁, OasisCurrency⟩, []⟩,
        ⟨2, OpTransfer, ⟨creditAddr, some ⟨SubAccountEscrow⟩⟩, ⟨v₂, OasisCurrency⟩, []⟩],
        [(NonceKey, .num n)]⟩ = .error .malformedValue) ∧
    (∃ resp,
      ConstructionPayloads (reclaimEscrowRequest signer debitAddr fee shares n []) =
        .ok resp) := by
  refine ⟨fun h => ?_, fun h => ?_, fun h => ?_, ?_⟩
  · simp [ConstructionPayloads, feeOperation, lookupMeta,
      payloadsMethodBody, transferBranch, h]
  · simp [ConstructionPayloads, feeOperation, lookupMeta,
      payloadsMethodBody, burnBranch, h]
  · simp [ConstructionPayloads, feeOperation, lookupMeta,
      payloadsMethodBody, addEscrowBranch, h]
  · exact ⟨_, payloads_reclaimEscrow_ok signer debitAddr fee shares n
      DefaultGas [] rfl⟩

/-- C2 witness: the theorem applied at concrete inputs, once with
mismatching debit and fee addresses (each of the three checked patterns
fails) and once for the reclaim-escrow pattern with mismatching addresses
(it succeeds). -/
theorem c2_signer_check_witness :
    ConstructionPayloads ⟨[feeOperation "A" 1 [],
      ⟨1, OpBurn, ⟨"B", some ⟨SubAccountGeneral⟩⟩, ⟨"-5", OasisCurrency⟩, []⟩],
      [(NonceKey, .num 3)]⟩ = .error .malformedValue ∧
    (∃ resp,
      ConstructionPayloads (reclaimEscrowRequest "A" "B" 1 2 3 []) = .ok resp) :=
  ⟨(c2_signer_check "A" "B" "C" 1 2 3 "-5" "5").2.1 (by decide),
   (c2_signer_check "A" "B" "C" 1 2 3 "-5" "5").2.2.2⟩

/-! ## Claim C3 -/

/-- C3: for the transfer and add-escrow patterns, whenever the two amounts
read from operations 1 (negated) and 2 denote different arbitrary-precision
quantities the request fails with MalformedValue, and whenever they denote
equal quantities the matched pattern proceeds to a successful response. -/
theorem c3_amount_magnitudes (signer creditAddr : String) (fee n q₁ q₂ : Nat)
    (a₁ a₂ : Amount)
    (h₁ : readOasisCurrencyNeg a₁ = some q₁)
    (h₂ : readOasisCurrency a₂ = some q₂) :
    (q₁ ≠ q₂ →
      ConstructionPayloads ⟨[feeOperation signer fee [],
        ⟨1, OpTransfer, ⟨signer, some ⟨SubAccountGeneral⟩⟩, a₁, []⟩,
        ⟨2, OpTransfer, ⟨creditAddr, some ⟨SubAccountGeneral⟩⟩, a₂, []⟩],
        [(NonceKey, .num n)]⟩ = .error .malformedValue) ∧
    (q₁ = q₂ → exceptIsOk
      (ConstructionPayloads ⟨[feeOperation signer fee [],
        ⟨1, OpTransfer, ⟨signer, some ⟨SubAccountGeneral⟩⟩, a₁, []⟩,
        ⟨2, OpTransfer, ⟨creditAddr, some ⟨SubAccountGeneral⟩⟩, a₂, []⟩],
        [(NonceKey, .num n)]⟩) = true) ∧
    (q₁ ≠ q₂ →
      ConstructionPayloads ⟨[feeOperation signer fee [],
        ⟨1, OpTransfer, ⟨signer, some ⟨SubAccountGeneral⟩⟩, a₁, []⟩,
        ⟨2, OpTransfer, ⟨creditAddr, some ⟨SubAccountEscrow⟩⟩, a₂, []⟩],
        [(NonceKey, .num n)]⟩ = .error .malformedValue) ∧
    (q₁ = q₂ → exceptIsOk
      (ConstructionPayloads ⟨[feeOperation signer fee [],
        ⟨1, OpTransfer, ⟨signer, some ⟨SubAccountGeneral⟩⟩, a₁, []⟩,
        ⟨2, OpTransfer, ⟨creditAddr, some ⟨SubAccountEscrow⟩⟩, a₂, []⟩],
        [(NonceKey, .num n)]⟩) = true) := by
  refine ⟨fun h => ?_, fun h => ?_, fun h => ?_, fun h => ?_⟩
  · simp [ConstructionPayloads, feeOperation, lookupMeta,
      payloadsMethodBody, transferBranch, h₁, h₂, h]
  · subst h
    simp [ConstructionPayloads, feeOperation, lookupMeta,
      payloadsMethodBody, transferBranch, h₁, h₂]
  · simp [ConstructionPayloads, feeOperation, lookupMeta,
      payloadsMethodBody, addEscrowBranch, h₁, h₂, h]
  · subst h
    simp [ConstructionPayloads, feeOperation, lookupMeta,
      payloadsMethodBody, addEscrowBranch, h₁, h₂]

/-- C3 witness: the theorem applied at concrete amounts, once with unequal
magnitudes 5 and 6 (failure) and once with equal magnitudes 5 and 5
(success), in the transfer pattern. -/
theorem c3_amount_magnitudes_witness :
    ConstructionPayloads ⟨[feeOperation "A" 1 [],
      ⟨1, OpTransfer, ⟨"A", some ⟨SubAccountGeneral⟩⟩, ⟨"-5", OasisCurrency⟩, []⟩,
      ⟨2, OpTransfer, ⟨"B", some ⟨SubAccountGeneral⟩⟩, ⟨"6", OasisCurrency⟩, []⟩],
      [(NonceKey, .num 3)]⟩ = .error .malformedValue ∧
    exceptIsOk
      (ConstructionPayloads ⟨[feeOperation "A" 1 [],
        ⟨1, OpTransfer, ⟨"A", some ⟨SubAccountGeneral⟩⟩, ⟨"-5", OasisCurrency⟩, []⟩,
        ⟨2, OpTransfer, ⟨"B", some ⟨SubAccountGeneral⟩⟩, ⟨"5", OasisCurrency⟩, []⟩],
        [(NonceKey, .num 3)]⟩) = true :=
  ⟨(c3_amount_magnitudes "A" "B" 1 3 5 6 ⟨"-5", OasisCurrency⟩
      ⟨"6", OasisCurrency⟩ (by decide) (by decide)).1 (by decide),
   (c3_amount_magnitudes "A" "B" 1 3 5 5 ⟨"-5", OasisCurrency⟩
      ⟨"5", OasisCurrency⟩ (by decide) (by decide)).2.1 rfl⟩

/-! ## Claim C10 -/

/-- C10: when the credit-side or escrow account address string fails to
decode, the transfer, add-escrow and reclaim-escrow branches of
ConstructionPayloads do not fail; the decode error is only logged and the
returned transaction body carries the zero-value address in place of the
intended account. -/
theorem c10_bad_address_still_ok (signer s : String) (fee amt shares n : Nat)
    (hbad : Address.unmarshalText s = none) :
    (ConstructionPayloads (transferRequest signer signer s fee amt amt n []) =
      .ok ⟨.ofTx ⟨n, some ⟨fee, DefaultGas⟩, .transfer, .transfer Address.zero amt⟩,
        [⟨signer, ⟨n, some ⟨fee, DefaultGas⟩, .transfer, .transfer Address.zero amt⟩⟩]⟩) ∧
    (ConstructionPayloads (addEscrowRequest signer signer s fee amt amt n []) =
      .ok ⟨.ofTx ⟨n, some ⟨fee, DefaultGas⟩, .addEscrow, .escrow Address.zero amt⟩,
        [⟨signer, ⟨n, some ⟨fee, DefaultGas⟩, .addEscrow, .escrow Address.zero amt⟩⟩]⟩) ∧
    (ConstructionPayloads (reclaimEscrowRequest signer s fee shares n []) =
      .ok ⟨.ofTx ⟨n, some ⟨fee, DefaultGas⟩, .reclaimEscrow, .reclaimEscrow Address.zero shares⟩,
        [⟨signer, ⟨n, some ⟨fee, DefaultGas⟩, .reclaimEscrow, .reclaimEscrow Address.zero shares⟩⟩]⟩) := by
  refine ⟨?_, ?_, ?_⟩
  · rw [payloads_transfer_ok signer s fee amt n DefaultGas [] rfl]
    simp [hbad]
  · rw [payloads_addEscrow_ok signer s fee amt n DefaultGas [] rfl]
    simp [hbad]
  · rw [payloads_reclaimEscrow_ok signer s fee shares n DefaultGas [] rfl]
    simp [hbad]

/-- C10 witness: the theorem applied at the undecodable address string
"xyz". -/
theorem c10_bad_address_still_ok_witness :
    ConstructionPayloads (transferRequest "A" "A" "xyz" 1 2 2 3 []) =
      .ok ⟨.ofTx ⟨3, some ⟨1, DefaultGas⟩, .transfer, .transfer Address.zero 2⟩,
        [⟨"A", ⟨3, some ⟨1, DefaultGas⟩, .transfer, .transfer Address.zero 2⟩⟩]⟩ :=
  (c10_bad_address_still_ok "A" "xyz" 1 2 4 3 (by decide)).1

/-! ## Claim C8 -/

/-- C8: readCurrency fails on a currency-tag mismatch, fails on an
unparseable decimal string, negates the parsed value when requested and
fails when the resulting quantity would be negative; on success it returns
the non-negative magnitude of the parsed value; and a readCurrency failure
on the fee operation surfaces from ConstructionPayloads as
MalformedValue. -/
theorem c8_readCurrency_spec :
    (∀ (a : Amount) (c : Currency) (neg : Bool),
      a.currency.symbol ≠ c.symbol → readCurrency a c neg = none) ∧
    (∀ (a : Amount) (c : Currency) (neg : Bool),
      parseBigInt a.value = none → readCurrency a c neg = none) ∧
    (∀ (a : Amount) (c : Currency) (neg : Bool) (i : Int),
      a.currency.symbol = c.symbol → parseBigInt a.value = some i →
      readCurrency a c neg = quantityFromBigInt (if neg then -i else i)) ∧
    (∀ i : Int, (i < 0 → quantityFromBigInt i = none) ∧
      (0 ≤ i → quantityFromBigInt i = some i.toNat)) ∧
    (∀ (a : Amount) (c : Currency) (neg : Bool) (q : Nat),
      readCurrency a c neg = some q →
      ∃ i, parseBigInt a.value = some i ∧ q = i.natAbs ∧
        0 ≤ (if neg then -i else i)) ∧
    (∀ (signer : String) (am : Amount) (op1 : Operation)
      (rest : List Operation) (n : Nat),
      readOasisCurrencyNeg am = none →
      ConstructionPayloads
        ⟨⟨0, OpTransfer, ⟨signer, some ⟨SubAccountGeneral⟩⟩, am, []⟩ :: op1 :: rest,
         [(NonceKey, .num n)]⟩ = .error .malformedValue) := by
  refine ⟨?_, ?_, ?_, ?_, ?_, ?_⟩
  · intro a c neg h
    simp [readCurrency, h]
  · intro a c neg h
    by_cases hs : a.currency.symbol = c.symbol
    · simp [readCurrency, hs, h]
    · simp [readCurrency, hs]
  · intro a c neg i hs hp
    simp [readCurrency, hs, hp]
  · intro i
    constructor
    · intro h
      simp [quantityFromBigInt, h]
    · intro h
      simp [quantityFromBigInt, not_lt.mpr h]
  · intro a c neg q h
    by_cases hs : a.currency.symbol = c.symbol
    · rcases hp : parseBigInt a.value with _ | i
      · simp [readCurrency, hs, hp] at h
      · simp only [readCurrency, hs, ne_eq, not_true_eq_false, if_false, hp,
          quantityFromBigInt] at h
        rcases neg with _ | _
        · simp only [Bool.false_eq_true, if_false] at h ⊢
          by_cases hneg : i < 0
          · simp [hneg] at h
          · simp [hneg] at h
            exact ⟨i, rfl, by omega, by omega⟩
        · simp only [if_true] at h ⊢
          by_cases hneg : -i < 0
          · simp [hneg] at h
          · simp [hneg] at h
            exact ⟨i, rfl, by omega, by omega⟩
    · simp [readCurrency, hs] at h
  · intro signer am op1 rest n h
    simp [ConstructionPayloads, lookupMeta, h]

/-- C8 witness: the theorem applied at concrete inputs: a pool-share tag
where the native token is expected, the valid string "-5" read with
negation, and a fee operation whose amount has the wrong currency. -/
theorem c8_readCurrency_spec_witness :
    readCurrency ⟨"5", PoolShare⟩ OasisCurrency false = none ∧
    readCurrency ⟨"-5", OasisCurrency⟩ OasisCurrency true = some 5 ∧
    ConstructionPayloads
      ⟨[⟨0, OpTransfer, ⟨"A", some ⟨SubAccountGeneral⟩⟩, ⟨"-1", PoolShare⟩, []⟩,
        ⟨1, OpBurn, ⟨"A", some ⟨SubAccountGeneral⟩⟩, ⟨"-5", OasisCurrency⟩, []⟩],
       [(NonceKey, .num 3)]⟩ = .error .malformedValue :=
  ⟨c8_readCurrency_spec.1 ⟨"5", PoolShare⟩ OasisCurrency false (by decide),
   (c8_readCurrency_spec.2.2.1 ⟨"-5", OasisCurrency⟩ OasisCurrency true (-5)
      (by decide) (by decide)).trans (by decide),
   c8_readCurrency_spec.2.2.2.2.2 "A" ⟨"-1", PoolShare⟩
     ⟨1, OpBurn, ⟨"A", some ⟨SubAccountGeneral⟩⟩, ⟨"-5", OasisCurrency⟩, []⟩
     [] 3 (by decide)⟩

/-! ## Claim C9 -/

/-- Inversion of a successful ConstructionPayloads call: the structural
facts every success implies. -/
theorem constructionPayloads_ok_inv (req : ConstructionPayloadsRequest)
    (resp : ConstructionPayloadsResponse)
    (hok : ConstructionPayloads req = .ok resp) :
    ∃ nonce feeOp op1 rest feeAmount feeGas method body,
      req.operations = feeOp :: op1 :: rest ∧
      lookupMeta req.metadata NonceKey = some (.num nonce) ∧
      readOasisCurrencyNeg feeOp.amount = some feeAmount ∧
      feeGasFromMeta feeOp.metadata = some feeGas ∧
      payloadsMethodBody feeOp.account.address op1 rest = .ok (method, body) ∧
      resp = ⟨.ofTx ⟨nonce, some ⟨feeAmount, feeGas⟩, method, body⟩,
        [⟨feeOp.account.address,
          ⟨nonce, some ⟨feeAmount, feeGas⟩, method, body⟩⟩]⟩ := by
  simp only [ConstructionPayloads] at hok
  split at hok
  · cases hok
  · cases hok
  rename_i nonce hnonce
  split at hok
  case _ feeOp op1 rest hops =>
    split at hok
    · cases hok
    rename_i hty
    split at hok
    · cases hok
    rename_i sub hsub
    split at hok
    · cases hok
    rename_i hsubaddr
    split at hok
    · cases hok
    rename_i feeAmount hfeeAmount
    split at hok
    · cases hok
    rename_i feeGas hfeeGas
    split at hok <;>
      first
        | exact Except.noConfusion hok
        | (rename_i hbody
           injection hok with hok
           exact ⟨_, _, _, _, _, _, _, _, hops, hnonce, hfeeAmount, hfeeGas,
             hbody, hok.symm⟩)
  · cases hok

/-- C9: for every request accepted by ConstructionPayloads, if the fee
operation (index 0) carries no fee_gas metadata key the produced unsigned
transaction's gas limit is the constant DefaultGas (10000), and if it
carries a numeric fee_gas value that value is used. -/
theorem c9_fee_gas (req : ConstructionPayloadsRequest)
    (resp : ConstructionPayloadsResponse) (op0 : Operation)
    (tx : Transaction) (f : Fee)
    (hok : ConstructionPayloads req = .ok resp)
    (hhead : req.operations.head? = some op0)
    (htx : resp.unsignedTransaction = .ofTx tx)
    (hfee : tx.fee = some f) :
    (lookupMeta op0.metadata FeeGasKey = none → f.gas = DefaultGas) ∧
    (∀ g, lookupMeta op0.metadata FeeGasKey = some (.num g) → f.gas = g) := by
  obtain ⟨nonce, feeOp, op1, rest, feeAmount, feeGas, method, body,
    hops, hnonce, hfeeAmount, hfeeGas, hbody, hresp⟩ :=
    constructionPayloads_ok_inv req resp hok
  rw [hops] at hhead
  simp only [List.head?_cons, Option.some.injEq] at hhead
  subst hhead
  subst hresp
  simp only [Option.some.injEq] at htx hfee
  simp only [TransportString.ofTx.injEq] at htx
  subst htx
  simp only [Transaction.fee, Option.some.injEq] at hfee
  subst hfee
  simp only [feeGasFromMeta] at hfeeGas
  constructor
  · intro hnone
    rw [hnone] at hfeeGas
    simp only [Option.some.injEq] at hfeeGas
    simp [DefaultGas, ← hfeeGas]
  · intro g hg
    rw [hg] at hfeeGas
    simp only [Option.some.injEq] at hfeeGas
    simp [← hfeeGas]

/-- C9 witness: the theorem applied twice at concrete requests, once with
no fee_gas metadata (the gas limit is DefaultGas = 10000) and once with
fee_gas = 77. -/
theorem c9_fee_gas_witness :
    (10000 : Nat) = DefaultGas ∧ (77 : Nat) = 77 :=
  ⟨(c9_fee_gas (burnRequest "A" "A" 1 2 3 [])
      ⟨.ofTx ⟨3, some ⟨1, 10000⟩, .burn, .burn 2⟩,
        [⟨"A", ⟨3, some ⟨1, 10000⟩, .burn, .burn 2⟩⟩]⟩
      (feeOperation "A" 1 []) ⟨3, some ⟨1, 10000⟩, .burn, .burn 2⟩ ⟨1, 10000⟩
      (by decide) (by decide) (by decide) (by decide)).1 (by decide),
   (c9_fee_gas (burnRequest "A" "A" 1 2 3 [(FeeGasKey, .num 77)])
      ⟨.ofTx ⟨3, some ⟨1, 77⟩, .burn, .burn 2⟩,
        [⟨"A", ⟨3, some ⟨1, 77⟩, .burn, .burn 2⟩⟩]⟩
      (feeOperation "A" 1 [(FeeGasKey, .num 77)])
      ⟨3, some ⟨1, 77⟩, .burn, .burn 2⟩ ⟨1, 77⟩
      (by decide) (by decide) (by decide) (by decide)).2 77 (by decide)⟩

/-! ## Claim C7 -/

theorem parseOps_ok_head (tx : Transaction) (fromAddr : String)
    (ops : List Operation) (h : parseOps tx fromAddr = .ok ops) :
    ∃ t, ops = parseFeeOp tx fromAddr :: t := by
  unfold parseOps at h
  split at h <;>
    first
      | exact Except.noConfusion h
      | (injection h with h; exact ⟨_, h.symm⟩)

theorem parseOps_other (tx : Transaction) (fromAddr s : String)
    (hm : tx.method = .other s) :
    parseOps tx fromAddr = .error .notImplemented := by
  cases htb : tx.body <;> simp [parseOps, hm, htb]

theorem constructionParse_unsigned_eq (tx : Transaction) :
    ConstructionParse false (.ofTx tx) =
      match parseOps tx FromPlaceholder with
      | .error e => .error e
      | .ok ops => .ok ⟨ops, [], tx.nonce⟩ := rfl

theorem constructionParse_signed_eq (st : SignedTransaction) (tx : Transaction)
    (hopen : stOpen st = some tx) :
    ConstructionParse true (.ofSigned st) =
      match parseOps tx ((Address.fromPublicKey st.pk).toText) with
      | .error e => .error e
      | .ok ops =>
        .ok ⟨ops, [(Address.fromPublicKey st.pk).toText], tx.nonce⟩ := by
  have hred : ConstructionParse true (.ofSigned st) =
      (match stOpen st with
       | none => .error .malformedValue
       | some tx =>
         match parseOps tx ((Address.fromPublicKey st.pk).toText) with
         | .error e => .error e
         | .ok ops =>
           .ok ⟨ops, [(Address.fromPublicKey st.pk).toText], tx.nonce⟩) := rfl
  rw [hred, hopen]

/-- C7: whenever ConstructionParse succeeds, the first emitted operation is
the fee operation with index 0, type Transfer and sub-account General,
whose payer address is the fixed placeholder in the unsigned case and the
address derived from the verified signer's public key in the signed case;
and a decoded transaction whose method is none of the four staking methods
fails with NotImplemented in both cases. -/
theorem c7_parse_fee_and_unknown_method :
    (∀ (tx : Transaction) (presp : ConstructionParseResponse),
      ConstructionParse false (.ofTx tx) = .ok presp →
      presp.operations.head? = some (parseFeeOp tx FromPlaceholder) ∧
      (parseFeeOp tx FromPlaceholder).index = 0 ∧
      (parseFeeOp tx FromPlaceholder).type = OpTransfer ∧
      (parseFeeOp tx FromPlaceholder).account.address = FromPlaceholder ∧
      (parseFeeOp tx FromPlaceholder).account.subAccount =
        some ⟨SubAccountGeneral⟩) ∧
    (∀ (st : SignedTransaction) (tx : Transaction)
      (presp : ConstructionParseResponse),
      stOpen st = some tx →
      ConstructionParse true (.ofSigned st) = .ok presp →
      presp.operations.head? =
        some (parseFeeOp tx ((Address.fromPublicKey st.pk).toText)) ∧
      (parseFeeOp tx ((Address.fromPublicKey st.pk).toText)).account.address =
        (Address.fromPublicKey st.pk).toText ∧
      presp.signers = [(Address.fromPublicKey st.pk).toText]) ∧
    (∀ (tx : Transaction) (s : String), tx.method = .other s →
      ConstructionParse false (.ofTx tx) = .error .notImplemented) ∧
    (∀ (st : SignedTransaction) (tx : Transaction) (s : String),
      stOpen st = some tx → tx.method = .other s →
      ConstructionParse true (.ofSigned st) = .error .notImplemented) := by
  refine ⟨?_, ?_, ?_, ?_⟩
  · intro tx presp h
    rw [constructionParse_unsigned_eq] at h
    rcases hops : parseOps tx FromPlaceholder with e | ops
    · rw [hops] at h; cases h
    · rw [hops] at h
      injection h with h
      obtain ⟨t, ht⟩ := parseOps_ok_head tx FromPlaceholder ops hops
      refine ⟨?_, rfl, rfl, rfl, rfl⟩
      rw [← h, ht]
      rfl
  · intro st tx presp hopen h
    rw [constructionParse_signed_eq st tx hopen] at h
    rcases hops : parseOps tx ((Address.fromPublicKey st.pk).toText) with e | ops
    · rw [hops] at h; cases h
    · rw [hops] at h
      injection h with h
      obtain ⟨t, ht⟩ :=
        parseOps_ok_head tx ((Address.fromPublicKey st.pk).toText) ops hops
      refine ⟨?_, rfl, ?_⟩
      · rw [← h, ht]
        rfl
      · rw [← h]
  · intro tx s hm
    rw [constructionParse_unsigned_eq, parseOps_other tx FromPlaceholder s hm]
  · intro st tx s hopen hm
    rw [constructionParse_signed_eq st tx hopen,
      parseOps_other tx ((Address.fromPublicKey st.pk).toText) s hm]

/-- C7 witness: the theorem applied at a concrete burn transaction parsed
unsigned (the head operation is the fee operation) and at a concrete
transaction with an unrecognized method (NotImplemented). -/
theorem c7_parse_fee_and_unknown_method_witness :
    (⟨[parseFeeOp ⟨3, some ⟨1, 10⟩, .burn, .burn 5⟩ FromPlaceholder,
        ⟨1, OpBurn, ⟨FromPlaceholder, some ⟨SubAccountGeneral⟩⟩,
          ⟨"-" ++ natToString 5, OasisCurrency⟩, []⟩],
      [], 3⟩ : ConstructionParseResponse).operations.head? =
      some (parseFeeOp ⟨3, some ⟨1, 10⟩, .burn, .burn 5⟩ FromPlaceholder) ∧
    ConstructionParse false
      (.ofTx ⟨0, none, .other "staking.AmendCommissionSchedule", .garbage⟩) =
      .error .notImplemented :=
  ⟨(c7_parse_fee_and_unknown_method.1 ⟨3, some ⟨1, 10⟩, .burn, .burn 5⟩
      ⟨[parseFeeOp ⟨3, some ⟨1, 10⟩, .burn, .burn 5⟩ FromPlaceholder,
        ⟨1, OpBurn, ⟨FromPlaceholder, some ⟨SubAccountGeneral⟩⟩,
          ⟨"-" ++ natToString 5, OasisCurrency⟩, []⟩],
      [], 3⟩ rfl).1,
   c7_parse_fee_and_unknown_method.2.2.1
     ⟨0, none, .other "staking.AmendCommissionSchedule", .garbage⟩
     "staking.AmendCommissionSchedule" rfl⟩

/-! ## Claim C6 -/

/-- C6 counterexample: a submit request whose signed-transaction string
does not decode still reaches the node (SubmitTx is invoked before any
local decoding), and only afterwards is MalformedValue returned; so the
decode failure does not abort the request before the external effect. -/
theorem c6_counterexample :
    (ConstructionSubmit true .garbage).response = .error .malformedValue ∧
    (ConstructionSubmit true .garbage).submitTxCalled = true := by
  decide

/-- C6 (amended): ConstructionSubmit always invokes the node client's
SubmitTx first, with the raw request string; if the broadcast fails the
request aborts with UnableToSubmitTx, and a request string that does not
decode as a signed transaction yields MalformedValue only after the
broadcast attempt. -/
theorem c6_submit_broadcasts_before_decode (submitOk : Bool)
    (t : TransportString) :
    (ConstructionSubmit submitOk t).submitTxCalled = true ∧
    (submitOk = false →
      (ConstructionSubmit submitOk t).response = .error .unableToSubmitTx) ∧
    (submitOk = true → (∀ st, t ≠ .ofSigned st) →
      (ConstructionSubmit submitOk t).response = .error .malformedValue) ∧
    (∀ st, submitOk = true → t = .ofSigned st →
      (ConstructionSubmit submitOk t).response = .ok st) := by
  rcases submitOk with _ | _
  · exact ⟨rfl, fun _ => rfl, fun h => absurd h (by decide),
      fun _ h => absurd h (by decide)⟩
  · rcases t with tx | st | _
    · exact ⟨rfl, fun h => absurd h (by decide), fun _ _ => rfl,
      fun _ _ h => TransportString.noConfusion h⟩
    · refine ⟨rfl, fun h => absurd h (by decide), fun _ hne => ?_,
        fun st' _ h => ?_⟩
      · exact absurd rfl (hne st)
      · injection h with h
        rw [← h]
        rfl
    · exact ⟨rfl, fun h => absurd h (by decide), fun _ _ => rfl,
      fun _ _ h => TransportString.noConfusion h⟩

/-- C6 witness: the theorem applied at a garbage request string with a
node that accepts: the broadcast is attempted and the response is
MalformedValue. -/
theorem c6_submit_broadcasts_before_decode_witness :
    (ConstructionSubmit true .garbage).submitTxCalled = true ∧
    (ConstructionSubmit true .garbage).response = .error .malformedValue :=
  ⟨(c6_submit_broadcasts_before_decode true .garbage).1,
   (c6_submit_broadcasts_before_decode true .garbage).2.2.1 rfl
     (fun _ => TransportString.noConfusion)⟩

/-! ## Claim C4 -/

/-- C4 counterexample: ConstructionCombine accepts a well-formed (32-byte
key, 64-byte signature) but invalid signature, and the resulting signed
transaction does not verify: ConstructionParse with signed = true fails on
it with MalformedValue. -/
theorem c4_counterexample :
    ConstructionCombine ⟨.ofTx ⟨1, some ⟨1, 10⟩, .transfer, .transfer ⟨2⟩ 5⟩,
        [⟨List.replicate 32 0, List.replicate 64 0⟩]⟩ =
      .ok (.ofSigned ⟨.ofTx ⟨1, some ⟨1, 10⟩, .transfer, .transfer ⟨2⟩ 5⟩,
        List.replicate 32 0, List.replicate 64 0⟩) ∧
    ConstructionParse true
      (.ofSigned ⟨.ofTx ⟨1, some ⟨1, 10⟩, .transfer, .transfer ⟨2⟩ 5⟩,
        List.replicate 32 0, List.replicate 64 0⟩) =
      .error .malformedValue := by
  decide

/-- C4 (amended): ConstructionCombine fails with MalformedValue when the
signature list does not have length exactly one, or when the single
signature's public key or raw signature bytes do not have the scheme's
fixed length; with exactly one well-formed signature (and a decodable
unsigned transaction) it succeeds and attaches the signature unchecked,
and the resulting signed transaction verifies under open exactly when the
supplied bytes are the valid signature of the transaction under the
supplied key. -/
theorem c4_combine_arity_and_open (u : TransportString) (tx : Transaction)
    (sigs : List RosettaSignature) (sp : RosettaSignature) :
    (sigs.length ≠ 1 →
      ConstructionCombine ⟨u, sigs⟩ = .error .malformedValue) ∧
    (sp.publicKeyBytes.length ≠ PublicKeySize →
      ConstructionCombine ⟨.ofTx tx, [sp]⟩ = .error .malformedValue) ∧
    (sp.publicKeyBytes.length = PublicKeySize →
      sp.bytes.length ≠ SignatureSize →
      ConstructionCombine ⟨.ofTx tx, [sp]⟩ = .error .malformedValue) ∧
    (sp.publicKeyBytes.length = PublicKeySize →
      sp.bytes.length = SignatureSize →
      ConstructionCombine ⟨.ofTx tx, [sp]⟩ =
        .ok (.ofSigned ⟨.ofTx tx, sp.publicKeyBytes, sp.bytes⟩) ∧
      (stOpen ⟨.ofTx tx, sp.publicKeyBytes, sp.bytes⟩ = some tx ↔
        sp.bytes = mkValidSig sp.publicKeyBytes (.ofTx tx))) := by
  refine ⟨fun h => ?_, fun h => ?_, fun h₁ h₂ => ?_, fun h₁ h₂ => ⟨?_, ?_, ?_⟩⟩
  · rcases u with tx' | st | _
    · rcases sigs with _ | ⟨s₁, _ | ⟨s₂, rest⟩⟩
      · rfl
      · simp at h
      · rfl
    · rfl
    · rfl
  · simp [ConstructionCombine, h]
  · simp [ConstructionCombine, h₁, h₂]
  · simp [ConstructionCombine, h₁, h₂]
  · intro hopen
    simp only [stOpen, sigVerify] at hopen
    by_cases hv : sp.bytes == mkValidSig sp.publicKeyBytes (.ofTx tx)
    · exact beq_iff_eq.mp hv
    · rw [if_neg (by simpa using hv)] at hopen
      cases hopen
  · intro hv
    simp [stOpen, sigVerify, hv]

/-- C4 witness: the theorem applied at concrete inputs: an empty signature
list fails; one well-formed signature whose bytes are the valid signature
succeeds and the result opens. -/
theorem c4_combine_arity_and_open_witness :
    ConstructionCombine ⟨.ofTx ⟨1, none, .burn, .burn 5⟩, []⟩ =
      .error .malformedValue ∧
    ConstructionCombine ⟨.ofTx ⟨1, none, .burn, .burn 5⟩,
        [⟨List.replicate 32 0,
          mkValidSig (List.replicate 32 0) (.ofTx ⟨1, none, .burn, .burn 5⟩)⟩]⟩ =
      .ok (.ofSigned ⟨.ofTx ⟨1, none, .burn, .burn 5⟩, List.replicate 32 0,
        mkValidSig (List.replicate 32 0) (.ofTx ⟨1, none, .burn, .burn 5⟩)⟩) ∧
    stOpen ⟨.ofTx ⟨1, none, .burn, .burn 5⟩, List.replicate 32 0,
        mkValidSig (List.replicate 32 0) (.ofTx ⟨1, none, .burn, .burn 5⟩)⟩ =
      some ⟨1, none, .burn, .burn 5⟩ :=
  ⟨(c4_combine_arity_and_open (.ofTx ⟨1, none, .burn, .burn 5⟩)
      ⟨1, none, .burn, .burn 5⟩ []
      ⟨List.replicate 32 0,
        mkValidSig (List.replicate 32 0) (.ofTx ⟨1, none, .burn, .burn 5⟩)⟩).1
    (by decide),
   ((c4_combine_arity_and_open (.ofTx ⟨1, none, .burn, .burn 5⟩)
      ⟨1, none, .burn, .burn 5⟩ []
      ⟨List.replicate 32 0,
        mkValidSig (List.replicate 32 0) (.ofTx ⟨1, none, .burn, .burn 5⟩)⟩).2.2.2
    (by decide) (by decide)).1,
   (((c4_combine_arity_and_open (.ofTx ⟨1, none, .burn, .burn 5⟩)
      ⟨1, none, .burn, .burn 5⟩ []
      ⟨List.replicate 32 0,
        mkValidSig (List.replicate 32 0) (.ofTx ⟨1, none, .burn, .burn 5⟩)⟩).2.2.2
    (by decide) (by decide)).2).mpr rfl⟩

/-! ## Claim C1 -/

/-- The components of an operation the round-trip contract compares:
index, type, account address, sub-account, amount string and currency
(the C1 claim lists exactly these; operation metadata is not among them). -/
def opShape (o : Operation) :
    Int × String × String × Option SubAccountIdentifier × String × Currency :=
  (o.index, o.type, o.account.address, o.account.subAccount,
    o.amount.value, o.amount.currency)

/-- Replace an operation's account address by the unsigned placeholder. -/
def withFromAddr (o : Operation) : Operation :=
  { o with account := { o.account with address := FromPlaceholder } }

/-- ConstructionPayloads followed by ConstructionParse (signed = false) on
the produced unsigned transaction. -/
def payloadsThenParse (req : ConstructionPayloadsRequest) :
    Except Err ConstructionParseResponse :=
  match ConstructionPayloads req with
  | .error e => .error e
  | .ok resp => ConstructionParse false resp.unsignedTransaction

/-- C1 counterexample: a burn-pattern operation list whose debit amount
string is the non-canonical "-050" is accepted by ConstructionPayloads,
but parsing the produced unsigned transaction re-prints the amount as
"-50", so the operation list is not reproduced exactly. -/
theorem c1_counterexample :
    (payloadsThenParse ⟨[feeOperation "A" 0 [],
        ⟨1, OpBurn, ⟨"A", some ⟨SubAccountGeneral⟩⟩, ⟨"-050", OasisCurrency⟩, []⟩],
       [(NonceKey, .num 7)]⟩).map
        (fun p => p.operations.map (fun o => o.amount.value)) =
      .ok ["-0", "-50"] ∧
    (⟨[feeOperation "A" 0 [],
        ⟨1, OpBurn, ⟨"A", some ⟨SubAccountGeneral⟩⟩, ⟨"-050", OasisCurrency⟩, []⟩],
       [(NonceKey, .num 7)]⟩ : ConstructionPayloadsRequest).operations.map
        (fun o => o.amount.value) = ["-0", "-050"] ∧
    (["-0", "-50"] : List String) ≠ ["-0", "-050"] := by
  decide

/-- C1 (amended): for every operation list in the canonical form of one of
the four supported patterns (canonically formatted amount strings of equal
magnitude, a valid credit or escrow account address, sequential indices,
matching debit and fee addresses) and every nonce, feeding the unsigned
transaction produced by ConstructionPayloads into ConstructionParse with
signed = false reproduces the list exactly on the compared components
(index, type, address, sub-account, amount string, currency), except that
every fee-payer address is replaced by the placeholder "(from)", and the
parsed metadata nonce equals the requested nonce. -/
theorem c1_roundtrip (signer : String) (a : Address) (fee amt shares n : Nat) :
    ((payloadsThenParse (transferRequest signer signer a.toText fee amt amt n [])).map
        (fun p => (p.operations.map opShape, p.metadataNonce)) =
      .ok ([opShape (withFromAddr (feeOperation signer fee [])),
            opShape (withFromAddr (mkOperation 1 OpTransfer signer
              SubAccountGeneral ("-" ++ natToString amt) OasisCurrency)),
            opShape (mkOperation 2 OpTransfer a.toText SubAccountGeneral
              (natToString amt) OasisCurrency)], n)) ∧
    ((payloadsThenParse (burnRequest signer signer fee amt n [])).map
        (fun p => (p.operations.map opShape, p.metadataNonce)) =
      .ok ([opShape (withFromAddr (feeOperation signer fee [])),
            opShape (withFromAddr (mkOperation 1 OpBurn signer
              SubAccountGeneral ("-" ++ natToString amt) OasisCurrency))], n)) ∧
    ((payloadsThenParse (addEscrowRequest signer signer a.toText fee amt amt n [])).map
        (fun p => (p.operations.map opShape, p.metadataNonce)) =
      .ok ([opShape (withFromAddr (feeOperation signer fee [])),
            opShape (withFromAddr (mkOperation 1 OpTransfer signer
              SubAccountGeneral ("-" ++ natToString amt) OasisCurrency)),
            opShape (mkOperation 2 OpTransfer a.toText SubAccountEscrow
              (natToString amt) OasisCurrency)], n)) ∧
    ((payloadsThenParse (reclaimEscrowRequest signer a.toText fee shares n [])).map
        (fun p => (p.operations.map opShape, p.metadataNonce)) =
      .ok ([opShape (withFromAddr (feeOperation signer fee [])),
            opShape (mkOperation 1 OpTransfer a.toText SubAccountEscrow
              ("-" ++ natToString shares) PoolShare)], n)) := by
  refine ⟨?_, ?_, ?_, ?_⟩
  · simp [payloadsThenParse, Except.map,
      payloads_transfer_ok signer a.toText fee amt n DefaultGas [] rfl,
      constructionParse_unsigned_eq, parseOps, parseFeeOp, address_roundtrip,
      opShape, withFromAddr, mkOperation, feeOperation]
  · simp [payloadsThenParse, Except.map,
      payloads_burn_ok signer fee amt n DefaultGas [] rfl,
      constructionParse_unsigned_eq, parseOps, parseFeeOp,
      opShape, withFromAddr, mkOperation, feeOperation]
  · simp [payloadsThenParse, Except.map,
      payloads_addEscrow_ok signer a.toText fee amt n DefaultGas [] rfl,
      constructionParse_unsigned_eq, parseOps, parseFeeOp, address_roundtrip,
      opShape, withFromAddr, mkOperation, feeOperation]
  · simp [payloadsThenParse, Except.map,
      payloads_reclaimEscrow_ok signer a.toText fee shares n DefaultGas [] rfl,
      constructionParse_unsigned_eq, parseOps, parseFeeOp, address_roundtrip,
      opShape, withFromAddr, mkOperation, feeOperation]

end OasisGateway
